import Mathlib

/-
Shallow embedding of the request orchestration and anti-obfuscation engine of
the dianping_crawler repository (class `RequestsUtils` in
`utils/requests_utils.py`).

Modelling conventions:
- Python strings are Lean `String`; `str.replace` is modelled by `pyReplace`
  (leftmost, non-overlapping, replace-all), `in` (substring test) by
  `strOccurs`, `strip(';')` by `stripSemis`, `split` by `String.splitOn`,
  `int(...)` by `String.toInt?` (failure of `int` is a raised exception).
- Network traffic is an oracle: a list of pre-determined results consumed in
  order.  Exhaustion of the oracle or of recursion fuel is a model artifact
  (`starved` outcomes), not a behaviour of the program.
- `sys.exit` / `exit()` and uncaught exceptions are explicit outcome
  constructors.
- The font-map collaborator `get_map` (module `utils.get_file_map`, declared
  out of scope by the repository: it turns a binary font file into a
  code-point-to-character mapping) is passed as an opaque function argument
  `gm : String → List (String × String)`; its keys are glyph names of the
  form `uniXXXX`, which the source rewrites to `&#xXXXX` numeric character
  references.
-/

/-! ### Python string primitives -/

/-- Python `s.strip(';')`: remove all leading and trailing `';'` characters. -/
def stripSemis (s : String) : String :=
  String.mk (((s.data.dropWhile (fun c => c = ';')).reverse.dropWhile
    (fun c => c = ';')).reverse)

/-- Fuelled worker for Python `replace`: at each position, if the (non-empty)
pattern is a prefix of the remaining text, emit the replacement and continue
after the match (non-overlapping, the replacement is not rescanned);
otherwise keep one character.  One unit of fuel is spent per position, and
every step consumes at least one character, so fuel `text.length` never runs
out. -/
def listReplaceF (pat rep : List Char) : Nat → List Char → List Char
  | _, [] => []
  | 0, text => text
  | Nat.succ f, c :: rest =>
    if pat ≠ [] ∧ pat.isPrefixOf (c :: rest) then
      rep ++ listReplaceF pat rep f ((c :: rest).drop pat.length)
    else
      c :: listReplaceF pat rep f rest

/-- Python `text.replace(pat, rep)` on character lists: leftmost-first,
non-overlapping, replaces every occurrence.  (Python's behaviour for an
empty pattern, inserting between characters, is not modelled; every pattern
built by this program is non-empty.) -/
def listReplace (pat rep text : List Char) : List Char :=
  listReplaceF pat rep text.length text

/-- Python `s.replace(pat, rep)` on strings. -/
def pyReplace (s pat rep : String) : String :=
  String.mk (listReplace pat.data rep.data s.data)

/-- Substring occurrence test on character lists. -/
def subOccurs (pat : List Char) : List Char → Bool
  | [] => pat.isPrefixOf ([] : List Char)
  | c :: rest => pat.isPrefixOf (c :: rest) || subOccurs pat rest

/-- Python `pat in s` (substring containment). -/
def strOccurs (pat s : String) : Bool :=
  subOccurs pat.data s.data

/-! ### PacingScheduler: `parse_stop_time` and `freeze_time` -/

/-- Decimal value of a digit character, if it is one. -/
def digitVal? (c : Char) : Option Nat :=
  if 48 ≤ c.toNat ∧ c.toNat ≤ 57 then some (c.toNat - 48) else none

/-- Accumulating decimal reader; fails on the first non-digit. -/
def digitsAux : List Char → Nat → Option Nat
  | [], acc => some acc
  | c :: cs, acc =>
    match digitVal? c with
    | none => none
    | some d => digitsAux cs (acc * 10 + d)

/-- Python `int(s)` restricted to optionally-negated decimal literals (the
only shapes this configuration uses); `none` models the `ValueError` Python
raises otherwise. -/
def pyInt? (s : String) : Option Int :=
  match s.data with
  | [] => none
  | '-' :: rest =>
    match rest with
    | [] => none
    | _ :: _ => (digitsAux rest 0).map (fun n => -(n : Int))
  | l => (digitsAux l 0).map (fun n => (n : Int))

/-- Python `s.split(sep)` for a single-character separator. -/
def splitOnChar (sep : Char) : List Char → List (List Char)
  | [] => [[]]
  | x :: xs =>
    if x = sep then [] :: splitOnChar sep xs
    else
      match splitOnChar sep xs with
      | [] => [[x]]
      | w :: ws => (x :: w) :: ws

/-- Python `s.split(sep)` on strings, single-character separator. -/
def pySplit (s : String) (sep : Char) : List String :=
  (splitOnChar sep s.data).map String.mk

/-- `RequestsUtils.parse_stop_time`: strip trailing/leading semicolons, split
on `';'`, split each piece on `','`, and return the pieces in reverse
declaration order (the source iterates `range(len-1, -1, -1)`). -/
def parse_stop_time (requests_times : String) : List (List String) :=
  (pySplit (stripSemis requests_times) ';').reverse.map (fun s => pySplit s ',')

/-- `int(e[0]), int(e[1])` of one parsed pacing entry; `none` models the
exception Python raises on a missing index or a non-numeric field. -/
def readRule (e : List String) : Option (Int × Int) :=
  match e with
  | a :: b :: _ =>
    match pyInt? a, pyInt? b with
    | some x, some y => some (x, y)
    | _, _ => none
  | _ => none

/-- The scan of `self.stop_times` inside `freeze_time`, at (already
incremented) counter value `g`: the first entry whose request count divides
`g` yields its sleep duration, and scanning stops.  `none` models a raised
exception (malformed entry or a zero request count); `some none` means no
rule fired; `some (some d)` means a suspension of `d` seconds. -/
def freeze_scan : List (List String) → Int → Option (Option Int)
  | [], _ => some none
  | e :: rest, g =>
    match readRule e with
    | none => none
    | some (rc, sl) =>
      if rc = 0 then none
      else if g % rc = 0 then some (some sl)
      else freeze_scan rest g

/-- The suspension decision of `freeze_time` at (already incremented)
counter value `g1`: if the counter is 1, never suspend; otherwise scan the
parsed table. -/
def freeze_dec (rules : List (List String)) (g1 : Nat) : Option (Option Int) :=
  if g1 = 1 then some none
  else freeze_scan rules (g1 : Int)

/-- `RequestsUtils.freeze_time`: increment the global counter, then decide a
suspension.  Returns the new counter together with the decision (the source
sleeps `d` seconds in jittered 1-second increments; only the duration is
modelled). -/
def freeze_time (rules : List (List String)) (g : Nat) : Nat × Option (Option Int) :=
  (g + 1, freeze_dec rules (g + 1))

/-- Boolean test: entry `e` is well-formed and does not fire at counter `g`. -/
def rule_no_fire (g : Int) (e : List String) : Bool :=
  match readRule e with
  | none => false
  | some (rc, _) => rc != 0 && g % rc != 0

/-! ### GlyphDecoder: the three `replace_*` functions -/

/-- Apply a list of `(marker, replacement)` substitutions in order, each one a
whole-text Python `replace`. -/
def applySubsts (pairs : List (String × String)) (s : String) : String :=
  pairs.foldl (fun acc kv => pyReplace acc kv.1 kv.2) s

/-- Marker built by `replace_search_html`:
`key = str(code_point).replace('uni', '&#x'); key = f'"{font_id}">{key};'`. -/
def search_key (font_id cp : String) : String :=
  "\"" ++ font_id ++ "\">" ++ pyReplace cp "uni" "&#x" ++ ";"

/-- Replacement built by `replace_search_html`: `value = f'"{font_id}">{character}'`. -/
def search_val (font_id ch : String) : String :=
  "\"" ++ font_id ++ "\">" ++ ch

/-- `RequestsUtils.replace_search_html`: for every `(font_id, font_path)` of
`file_map` and every `(code_point, character)` of `get_map(font_path)`,
replace the search-page marker by its replacement across the whole text. -/
def replace_search_html (gm : String → List (String × String))
    (file_map : List (String × String)) (page_source : String) : String :=
  file_map.foldl (fun acc fp =>
    (gm fp.2).foldl (fun acc2 cc =>
      pyReplace acc2 (search_key fp.1 cc.1) (search_val fp.1 cc.2)) acc) page_source

/-- The flattened `(marker, replacement)` list of `replace_search_html`, in
the order the source applies them. -/
def search_pairs (gm : String → List (String × String))
    (file_map : List (String × String)) : List (String × String) :=
  file_map.flatMap (fun fp =>
    (gm fp.2).map (fun cc => (search_key fp.1 cc.1, search_val fp.1 cc.2)))

/-- Marker of `replace_review_html`: the first `key` assignment is dead code
in the source; the one that is used is `key = f'"{code_point}"><'`. -/
def review_key (cp : String) : String :=
  "\"" ++ cp ++ "\"><"

/-- Replacement of `replace_review_html`: `value = f'"{code_point}">{character}<'`. -/
def review_val (cp ch : String) : String :=
  "\"" ++ cp ++ "\">" ++ ch ++ "<"

/-- `RequestsUtils.replace_review_html` (anchored on the code point itself,
not the font id). -/
def replace_review_html (gm : String → List (String × String))
    (file_map : List (String × String)) (page_source : String) : String :=
  file_map.foldl (fun acc fp =>
    (gm fp.2).foldl (fun acc2 cc =>
      pyReplace acc2 (review_key cc.1) (review_val cc.1 cc.2)) acc) page_source

/-- The flattened `(marker, replacement)` list of `replace_review_html`. -/
def review_pairs (gm : String → List (String × String))
    (file_map : List (String × String)) : List (String × String) :=
  file_map.flatMap (fun fp =>
    (gm fp.2).map (fun cc => (review_key cc.1, review_val cc.1 cc.2)))

/-- Marker of `replace_json_text`: `key = f'\\"{font_id}\\">{key};'` with the
code point rewritten to a numeric character reference (Python `'\\"'` is the
two characters backslash, quote). -/
def json_key (font_id cp : String) : String :=
  "\\\"" ++ font_id ++ "\\\">" ++ pyReplace cp "uni" "&#x" ++ ";"

/-- Replacement of `replace_json_text`: `value = f'\\"{font_id}\\">{character}'`. -/
def json_val (font_id ch : String) : String :=
  "\\\"" ++ font_id ++ "\\\">" ++ ch

/-- `RequestsUtils.replace_json_text`. -/
def replace_json_text (gm : String → List (String × String))
    (file_map : List (String × String)) (json_text : String) : String :=
  file_map.foldl (fun acc fp =>
    (gm fp.2).foldl (fun acc2 cc =>
      pyReplace acc2 (json_key fp.1 cc.1) (json_val fp.1 cc.2)) acc) json_text

/-- The flattened `(marker, replacement)` list of `replace_json_text`. -/
def json_pairs (gm : String → List (String × String))
    (file_map : List (String × String)) : List (String × String) :=
  file_map.flatMap (fun fp =>
    (gm fp.2).map (fun cc => (json_key fp.1 cc.1, json_val fp.1 cc.2)))

/-! ### RequestOrchestrator: `get_requests` and `handle_verify`

One invocation of the body of `get_requests` (up to and including the
`handle_verify` decision) is `dispatch_once`.  All of the source's recursive
self-calls (`handle_verify` re-invoking `get_requests`, and the retry after a
caught proxy `RequestException`) pass the *same* `url` and `request_type`, so
the recursion is modelled as the fuelled loop `get_requests`. -/

/-- An HTTP response as far as this layer inspects it: its final URL. -/
structure Resp where
  url : String
deriving DecidableEq, Repr

/-- Result of one `requests.get` call: a response, or a raised
`requests.RequestException` (connection error / timeout). -/
inductive NetResult where
  | ok (r : Resp)
  | exn
deriving DecidableEq, Repr

/-- Mutable state visible to `get_requests`: the instance counter
`self.global_time`, a log of pacing suspensions performed, a count of the
blocking `input()` verification prompts, and the network oracle. -/
structure GState where
  global_time : Nat
  sleeps : List Int
  prompts : Nat
  net : List NetResult
deriving DecidableEq, Repr

/-- Decision of `handle_verify`: retry the dispatch, or return the response. -/
inductive VerifyStep where
  | retry
  | done (r : Resp)
deriving DecidableEq, Repr

/-- `RequestsUtils.handle_verify`: if the response URL contains `'verify'`,
prompt the operator (skipped exactly when the mode is `'proxy, no cookie'`
and `USE_PROXY` holds) and re-invoke the dispatch with the same URL and mode;
otherwise return the response. -/
def handle_verify_step (use_proxy : Bool) (mode : String) (r : Resp)
    (st : GState) : VerifyStep × GState :=
  if strOccurs "verify" r.url then
    if mode ≠ "proxy, no cookie" ∨ use_proxy = false then
      (VerifyStep.retry, { st with prompts := st.prompts + 1 })
    else
      (VerifyStep.retry, st)
  else
    (VerifyStep.done r, st)

/-- Outcome of one pass through the body of `get_requests`. -/
inductive StepOut where
  | done (r : Resp)
  | retry
  | raisedErr
  | assertFail
  | starvedNet
deriving DecidableEq, Repr

/-- Lift a `handle_verify` decision into a dispatch outcome. -/
def verifyToStep : VerifyStep × GState → StepOut × GState
  | (VerifyStep.retry, st) => (StepOut.retry, st)
  | (VerifyStep.done r, st) => (StepOut.done r, st)

/-- The `valid_request_types` list asserted at the top of `get_requests`. -/
def validModes : List String :=
  ["no header", "no proxy, cookie", "no proxy, no cookie",
   "proxy, no cookie", "proxy, cookie"]

/-- One pass through the body of `RequestsUtils.get_requests` for the given
mode (`request_type`), over instance state `st`.  `rules` is
`self.stop_times`; `use_proxy` is `spider_config.USE_PROXY`.  The
`'no header'` branch returns the raw response with no pacing and no
verification handling; the two `'no proxy'` branches and the
`'proxy, cookie'` branch call `freeze_time` first; the `'proxy, no cookie'`
branch does not.  Only the proxied calls sit in a `try/except` that turns a
network exception into an unconditional retry. -/
def dispatch_once (use_proxy : Bool) (rules : List (List String))
    (mode : String) (st : GState) : StepOut × GState :=
  if mode ∈ validModes then
    if mode = "no header" then
      match st.net with
      | [] => (StepOut.starvedNet, st)
      | NetResult.ok r :: rest => (StepOut.done r, { st with net := rest })
      | NetResult.exn :: rest => (StepOut.raisedErr, { st with net := rest })
    else if strOccurs "no proxy" mode then
      match freeze_dec rules (st.global_time + 1) with
      | none => (StepOut.raisedErr, { st with global_time := st.global_time + 1 })
      | some osleep =>
        match st.net with
        | [] =>
          (StepOut.starvedNet, { st with global_time := st.global_time + 1,
                                         sleeps := st.sleeps ++ osleep.toList })
        | NetResult.ok r :: rest =>
          verifyToStep (handle_verify_step use_proxy mode r
            { st with global_time := st.global_time + 1,
                      sleeps := st.sleeps ++ osleep.toList, net := rest })
        | NetResult.exn :: rest =>
          (StepOut.raisedErr, { st with global_time := st.global_time + 1,
                                        sleeps := st.sleeps ++ osleep.toList,
                                        net := rest })
    else if mode = "proxy, no cookie" then
      match st.net with
      | [] => (StepOut.starvedNet, st)
      | NetResult.ok r :: rest =>
        verifyToStep (handle_verify_step use_proxy mode r { st with net := rest })
      | NetResult.exn :: rest =>
        if use_proxy then (StepOut.retry, { st with net := rest })
        else (StepOut.raisedErr, { st with net := rest })
    else if mode = "proxy, cookie" then
      match freeze_dec rules (st.global_time + 1) with
      | none => (StepOut.raisedErr, { st with global_time := st.global_time + 1 })
      | some osleep =>
        match st.net with
        | [] =>
          (StepOut.starvedNet, { st with global_time := st.global_time + 1,
                                         sleeps := st.sleeps ++ osleep.toList })
        | NetResult.ok r :: rest =>
          verifyToStep (handle_verify_step use_proxy mode r
            { st with global_time := st.global_time + 1,
                      sleeps := st.sleeps ++ osleep.toList, net := rest })
        | NetResult.exn :: rest =>
          if use_proxy then
            (StepOut.retry, { st with global_time := st.global_time + 1,
                                      sleeps := st.sleeps ++ osleep.toList,
                                      net := rest })
          else
            (StepOut.raisedErr, { st with global_time := st.global_time + 1,
                                          sleeps := st.sleeps ++ osleep.toList,
                                          net := rest })
    else
      (StepOut.raisedErr, st)
  else
    (StepOut.assertFail, st)

/-- Final outcome of `get_requests`. -/
inductive GOut where
  | resp (r : Resp)
  | raised
  | assertErr
  | netStarved
  | fuelOut
deriving DecidableEq, Repr

/-- `RequestsUtils.get_requests`: iterate `dispatch_once`, re-dispatching
with the same `url` and `mode` whenever `handle_verify` (or the proxy retry
path) says so.  `url` is threaded unchanged, exactly as in the source. -/
def get_requests (use_proxy : Bool) (rules : List (List String)) :
    Nat → String → String → GState → GOut × GState
  | 0, _, _, st => (GOut.fuelOut, st)
  | Nat.succ fuel, url, mode, st =>
    match dispatch_once use_proxy rules mode st with
    | (StepOut.done r, st1) => (GOut.resp r, st1)
    | (StepOut.retry, st1) => get_requests use_proxy rules fuel url mode st1
    | (StepOut.raisedErr, st1) => (GOut.raised, st1)
    | (StepOut.assertFail, st1) => (GOut.assertErr, st1)
    | (StepOut.starvedNet, st1) => (GOut.netStarved, st1)

/-! ### `get_retry_time` and the JSON-API loop `get_request_for_interface`

The loop drives `get_requests(url, 'proxy, no cookie')`; at this layer each
such call is abstracted to the response body it finally returns, drawn from
an oracle: `ApiResp.bad` is a body `json.loads` rejects, `ApiResp.code c` a
body parsing to an object whose `'code'` field is `c` (406 responses carry
`customData.verifyPageUrl`, which the prompt displays; only the prompt count
is modelled). -/

/-- `RequestsUtils.get_retry_time`. -/
def get_retry_time (repeat_number : Int) : Int :=
  if repeat_number = 0 then 5 else repeat_number + 1

/-- A response body as classified by the JSON-API loop. -/
inductive ApiResp where
  | bad
  | code (c : Int)
deriving DecidableEq, Repr

/-- Outcome of `get_request_for_interface`: return the last response, exit
fatally (`exit()` on budget exhaustion), or run out of oracle/model fuel.
Each constructor carries the cold-start flag value, the number of blocking
406 prompts performed, and the number of `get_requests` calls made. -/
inductive IfaceResult where
  | ret (last : Option ApiResp) (cold : Bool) (pauses : Nat) (attempts : Nat)
  | exited (cold : Bool) (pauses : Nat) (attempts : Nat)
  | starved (cold : Bool) (pauses : Nat) (attempts : Nat)
deriving DecidableEq, Repr

/-- Number of blocking 406 verification prompts recorded in a result. -/
def IfaceResult.pausesOf : IfaceResult → Nat
  | IfaceResult.ret _ _ p _ => p
  | IfaceResult.exited _ p _ => p
  | IfaceResult.starved _ p _ => p

/-- The `while retry_time > 0` loop of `get_request_for_interface`.
`n` is the remaining value of `retry_time` (decremented at the top of every
iteration), `cold` is `cache.is_cold_start`, `pauses` and `attempts` are
accumulators, `last` the current value of the local `r`.  In the 406
cold-start branch the source re-requests into `r` but keeps the *old*
`r_json`, so the 200 test that follows still sees 406 and the extra response
is only ever seen again as the returned `r`. -/
def run_iface : Nat → Bool → List ApiResp → Nat → Nat → Option ApiResp → IfaceResult
  | 0, cold, _, pauses, attempts, last => IfaceResult.ret last cold pauses attempts
  | Nat.succ n, cold, oracle, pauses, attempts, _ =>
    match oracle with
    | [] => IfaceResult.starved cold pauses attempts
    | r :: rest =>
      match r with
      | ApiResp.bad => run_iface n cold rest pauses (attempts + 1) (some ApiResp.bad)
      | ApiResp.code c =>
        if c = 406 ∧ cold = true then
          match rest with
          | [] => IfaceResult.starved cold (pauses + 1) (attempts + 1)
          | r2 :: rest2 =>
            if n = 0 then IfaceResult.exited false (pauses + 1) (attempts + 2)
            else run_iface n false rest2 (pauses + 1) (attempts + 2) (some r2)
        else if c = 200 then
          IfaceResult.ret (some (ApiResp.code c)) cold pauses (attempts + 1)
        else if n = 0 then
          IfaceResult.exited cold pauses (attempts + 1)
        else
          run_iface n cold rest pauses (attempts + 1) (some (ApiResp.code c))

/-- `RequestsUtils.get_request_for_interface`, with `repeat_number` standing
for `spider_config.REPEAT_NUMBER` and `cold` for the process-wide
`cache.is_cold_start` flag at entry. -/
def get_request_for_interface (repeat_number : Int) (cold : Bool)
    (oracle : List ApiResp) : IfaceResult :=
  run_iface (get_retry_time repeat_number).toNat cold oracle 0 0 none

/-! ### CredentialPool: `get_proxy` and the proxy constructors -/

/-- The configuration fields of `spider_config` that `get_proxy` reads. -/
structure SpiderConfig where
  repeat_number : Int
  http_extract : Bool
  key_extract : Bool
  key_id : String
  key_key : String
  proxy_host : String
  proxy_port : String
deriving DecidableEq, Repr

/-- `RequestsUtils.http_proxy_utils`: the proxy URL (the source installs it
under both the `http` and `https` keys; the URL is the content). -/
def http_proxy_utils (ip port : String) : String :=
  "http://" ++ ip ++ ":" ++ port

/-- `RequestsUtils.key_proxy_utils`. -/
def key_proxy_utils (cfg : SpiderConfig) : String :=
  "http://" ++ cfg.key_id ++ ":" ++ cfg.key_key ++ "@" ++ cfg.proxy_host
    ++ ":" ++ cfg.proxy_port

/-- One entry of the supply endpoint's JSON array. -/
structure ProxyEntry where
  ip : String
  port : String
deriving DecidableEq, Repr

/-- Result of the `requests.get(proxy_url)` refill call: a parsed entry list,
or a raised `requests.RequestException`. -/
inductive FetchRes where
  | ok (entries : List ProxyEntry)
  | exn
deriving DecidableEq, Repr

/-- Outcome of `get_proxy`: a proxy URL, the diagnostic `sys.exit` on a
failed fetch, an uncaught `IndexError` from `pop(0)` on an empty pool, or
the `sys.exit` for an unset proxy-mode selection. -/
inductive ProxyOut where
  | proxy (meta : String)
  | exitedFatal
  | indexError
  | cfgExit
deriving DecidableEq, Repr

/-- The refill loop: `for proxy in r_json: for _ in range(repeat_nub):
self.proxy_pool.append([proxy['ip'], proxy['port']])` (a negative repeat
factor yields an empty `range`, hence `toNat`). -/
def expandPool (repeat_nub : Int) (entries : List ProxyEntry) :
    List (String × String) :=
  entries.flatMap (fun e => List.replicate repeat_nub.toNat (e.ip, e.port))

/-- `RequestsUtils.get_proxy` over the in-memory pool, with the supply call
abstracted as `fetch`. -/
def get_proxy (cfg : SpiderConfig) (fetch : FetchRes)
    (pool : List (String × String)) : ProxyOut × List (String × String) :=
  if cfg.http_extract then
    match (if pool.length = 0 then
            match fetch with
            | FetchRes.exn => none
            | FetchRes.ok entries =>
              some (pool ++ expandPool cfg.repeat_number entries)
           else some pool) with
    | none => (ProxyOut.exitedFatal, pool)
    | some pool1 =>
      match pool1 with
      | [] => (ProxyOut.indexError, pool1)
      | (ip, port) :: rest => (ProxyOut.proxy (http_proxy_utils ip port), rest)
  else if cfg.key_extract then
    (ProxyOut.proxy (key_proxy_utils cfg), pool)
  else
    (ProxyOut.cfgExit, pool)

/-- `n` successive `get_proxy` calls, collecting the outcomes and the final
pool (the same `fetch` oracle is offered to any refill that occurs). -/
def get_proxy_seq (cfg : SpiderConfig) (fetch : FetchRes) :
    Nat → List (String × String) → List ProxyOut × List (String × String)
  | 0, pool => ([], pool)
  | Nat.succ n, pool =>
    match get_proxy cfg fetch pool with
    | (o, pool1) =>
      match get_proxy_seq cfg fetch n pool1 with
      | (os, pool2) => (o :: os, pool2)

/-! ### Helper lemmas -/

/-- The fuelled `replace` worker is the identity when the pattern does not
occur in the text. -/
theorem listReplaceF_no_occur (pat rep : List Char) (f : Nat) :
    ∀ text, subOccurs pat text = false → listReplaceF pat rep f text = text := by
  induction f with
  | zero => intro text h; cases text <;> rfl
  | succ f ih =>
    intro text h
    cases text with
    | nil => rfl
    | cons c rest =>
      have h2 : (pat.isPrefixOf (c :: rest) || subOccurs pat rest) = false := h
      rw [Bool.or_eq_false_iff] at h2
      rw [listReplaceF, if_neg]
      · rw [ih rest h2.2]
      · intro hcon
        exact absurd (h2.1 ▸ hcon.2) (by simp)

/-- A `replace` whose pattern does not occur in the text is the identity. -/
theorem listReplace_no_occur (pat rep text : List Char)
    (h : subOccurs pat text = false) : listReplace pat rep text = text :=
  listReplaceF_no_occur pat rep text.length text h

/-- A substitution pass over markers none of which occur in `t` is the
identity. -/
theorem applySubsts_fixed (ps : List (String × String)) (t : String)
    (h : ∀ kv ∈ ps, strOccurs kv.1 t = false) : applySubsts ps t = t := by
  induction ps with
  | nil => rfl
  | cons p ps ih =>
    have hocc := h p (List.mem_cons_self p ps)
    have h1 : pyReplace t p.1 p.2 = t := by
      show String.mk (listReplace p.1.data p.2.data t.data) = t
      rw [listReplace_no_occur _ _ _ hocc]
    calc applySubsts (p :: ps) t = applySubsts ps (pyReplace t p.1 p.2) := rfl
    _ = applySubsts ps t := by rw [h1]
    _ = t := ih (fun kv hkv => h kv (List.mem_cons_of_mem p hkv))

/-- The nested per-font / per-entry loops of the decoders equal one
substitution pass over the flattened pair list. -/
theorem nested_eq_applySubsts (pairsOf : (String × String) → List (String × String))
    (fm : List (String × String)) (s : String) :
    fm.foldl (fun acc fp =>
        (pairsOf fp).foldl (fun a kv => pyReplace a kv.1 kv.2) acc) s
      = applySubsts (fm.flatMap pairsOf) s := by
  induction fm generalizing s with
  | nil => rfl
  | cons fp fms ih =>
    show fms.foldl _ ((pairsOf fp).foldl _ s)
      = applySubsts (pairsOf fp ++ fms.flatMap pairsOf) s
    rw [applySubsts, List.foldl_append]
    exact ih _

/-- `replace_search_html` as a flattened substitution pass. -/
theorem replace_search_eq (gm : String → List (String × String))
    (fm : List (String × String)) (s : String) :
    replace_search_html gm fm s = applySubsts (search_pairs gm fm) s := by
  rw [search_pairs, ← nested_eq_applySubsts
    (fun fp => (gm fp.2).map (fun cc => (search_key fp.1 cc.1, search_val fp.1 cc.2))) fm s]
  unfold replace_search_html
  congr 1
  funext acc fp
  rw [List.foldl_map]

/-- `replace_review_html` as a flattened substitution pass. -/
theorem replace_review_eq (gm : String → List (String × String))
    (fm : List (String × String)) (s : String) :
    replace_review_html gm fm s = applySubsts (review_pairs gm fm) s := by
  rw [review_pairs, ← nested_eq_applySubsts
    (fun fp => (gm fp.2).map (fun cc => (review_key cc.1, review_val cc.1 cc.2))) fm s]
  unfold replace_review_html
  congr 1
  funext acc fp
  rw [List.foldl_map]

/-- `replace_json_text` as a flattened substitution pass. -/
theorem replace_json_eq (gm : String → List (String × String))
    (fm : List (String × String)) (s : String) :
    replace_json_text gm fm s = applySubsts (json_pairs gm fm) s := by
  rw [json_pairs, ← nested_eq_applySubsts
    (fun fp => (gm fp.2).map (fun cc => (json_key fp.1 cc.1, json_val fp.1 cc.2))) fm s]
  unfold replace_json_text
  congr 1
  funext acc fp
  rw [List.foldl_map]

/-- A scan over entries none of which fire yields no suspension. -/
theorem freeze_scan_no_fire (rules : List (List String)) (g : Int)
    (h : ∀ e ∈ rules, rule_no_fire g e = true) :
    freeze_scan rules g = some none := by
  induction rules with
  | nil => rfl
  | cons e rest ih =>
    have he := h e (List.mem_cons_self e rest)
    rw [rule_no_fire] at he
    rw [freeze_scan]
    cases hre : readRule e with
    | none => rw [hre] at he; exact absurd he (by simp)
    | some p =>
      obtain ⟨rc, sl⟩ := p
      rw [hre] at he
      have hand : rc ≠ 0 ∧ g % rc ≠ 0 := by simpa using he
      simp only [hre]
      rw [if_neg hand.1, if_neg hand.2]
      exact ih (fun e2 he2 => h e2 (List.mem_cons_of_mem e he2))

/-- The first firing entry determines the suspension; later entries are not
scanned. -/
theorem freeze_scan_first_fire (rules1 rules2 : List (List String))
    (e : List String) (g rc sl : Int)
    (h1 : ∀ e2 ∈ rules1, rule_no_fire g e2 = true)
    (h2 : readRule e = some (rc, sl)) (h3 : rc ≠ 0) (h4 : g % rc = 0) :
    freeze_scan (rules1 ++ e :: rules2) g = some (some sl) := by
  induction rules1 with
  | nil =>
    rw [List.nil_append, freeze_scan]
    simp only [h2]
    rw [if_neg h3, if_pos h4]
  | cons e1 r1 ih =>
    have he := h1 e1 (List.mem_cons_self e1 r1)
    rw [rule_no_fire] at he
    rw [List.cons_append, freeze_scan]
    cases hre : readRule e1 with
    | none => rw [hre] at he; exact absurd he (by simp)
    | some p =>
      obtain ⟨rc1, sl1⟩ := p
      rw [hre] at he
      have hand : rc1 ≠ 0 ∧ g % rc1 ≠ 0 := by simpa using he
      simp only [hre]
      rw [if_neg hand.1, if_neg hand.2]
      exact ih (fun e2 he2 => h1 e2 (List.mem_cons_of_mem e1 he2))

/-- `handle_verify` never touches the global counter. -/
theorem handle_verify_step_global (up : Bool) (mode : String) (r : Resp)
    (st : GState) :
    ((handle_verify_step up mode r st).2).global_time = st.global_time := by
  unfold handle_verify_step
  by_cases hv : strOccurs "verify" r.url = true
  · rw [if_pos hv]
    by_cases hc : mode ≠ "proxy, no cookie" ∨ up = false
    · rw [if_pos hc]
    · rw [if_neg hc]
  · rw [if_neg hv]

/-- `verifyToStep` keeps the state unchanged. -/
theorem verifyToStep_snd (p : VerifyStep × GState) : (verifyToStep p).2 = p.2 := by
  obtain ⟨v, st⟩ := p
  cases v <;> rfl

/-- Once the cold-start flag is down, the JSON-API loop never prompts. -/
theorem run_iface_pauses_warm (n : Nat) :
    ∀ (oracle : List ApiResp) (p a : Nat) (last : Option ApiResp),
    (run_iface n false oracle p a last).pausesOf = p := by
  induction n with
  | zero => intro oracle p a last; rfl
  | succ n ih =>
    intro oracle p a last
    cases oracle with
    | nil => rfl
    | cons r rest =>
      cases r with
      | bad => exact ih rest p (a + 1) (some ApiResp.bad)
      | code c =>
        simp only [run_iface]
        rw [if_neg (by simp : ¬(c = 406 ∧ false = true))]
        by_cases hc : c = 200
        · rw [if_pos hc]; rfl
        · rw [if_neg hc]
          by_cases hn : n = 0
          · rw [if_pos hn]; rfl
          · rw [if_neg hn]; exact ih rest p (a + 1) (some (ApiResp.code c))

/-- Starting cold, the JSON-API loop prompts at most once. -/
theorem run_iface_pauses_cold (n : Nat) :
    ∀ (oracle : List ApiResp) (p a : Nat) (last : Option ApiResp),
    (run_iface n true oracle p a last).pausesOf ≤ p + 1 := by
  induction n with
  | zero => intro oracle p a last; exact Nat.le_succ p
  | succ n ih =>
    intro oracle p a last
    cases oracle with
    | nil => exact Nat.le_succ p
    | cons r rest =>
      cases r with
      | bad => exact ih rest p (a + 1) (some ApiResp.bad)
      | code c =>
        by_cases h406 : c = 406
        · subst h406
          cases rest with
          | nil =>
            simp only [run_iface]
            rw [if_pos (by simp)]
            exact Nat.le_refl _
          | cons r2 rest2 =>
            simp only [run_iface]
            rw [if_pos (by simp)]
            by_cases hn : n = 0
            · rw [if_pos hn]; exact Nat.le_refl _
            · rw [if_neg hn]
              rw [run_iface_pauses_warm n rest2 (p + 1) (a + 2) (some r2)]
        · simp only [run_iface]
          rw [if_neg (by simp [h406])]
          by_cases hc : c = 200
          · rw [if_pos hc]; exact Nat.le_succ p
          · rw [if_neg hc]
            by_cases hn : n = 0
            · rw [if_pos hn]; exact Nat.le_succ p
            · rw [if_neg hn]; exact ih rest p (a + 1) (some (ApiResp.code c))

/-- Popping a non-empty pool in HTTP-extract mode never refills: it returns
the front slot and leaves the tail. -/
theorem get_proxy_pop (cfg : SpiderConfig) (fetch : FetchRes)
    (e : String × String) (rest : List (String × String))
    (h : cfg.http_extract = true) :
    get_proxy cfg fetch (e :: rest)
      = (ProxyOut.proxy (http_proxy_utils e.1 e.2), rest) := by
  obtain ⟨ip, port⟩ := e
  unfold get_proxy
  rw [if_pos h, if_neg (by simp)]

/-- `n` pops without refill return the first `n` slots in order and leave
the rest: first-in-first-out, every slot at most once. -/
theorem get_proxy_seq_take_drop (cfg : SpiderConfig) (fetch : FetchRes)
    (n : Nat) :
    ∀ (pool : List (String × String)), cfg.http_extract = true →
    n ≤ pool.length →
    get_proxy_seq cfg fetch n pool
      = ((pool.take n).map (fun e => ProxyOut.proxy (http_proxy_utils e.1 e.2)),
         pool.drop n) := by
  induction n with
  | zero => intro pool h1 h2; simp [get_proxy_seq]
  | succ n ih =>
    intro pool h1 h2
    cases pool with
    | nil => exact absurd h2 (by simp)
    | cons e rest =>
      have hlen : n ≤ rest.length := by simpa using h2
      simp only [get_proxy_seq, get_proxy_pop cfg fetch e rest h1,
        ih rest h1 hlen, List.take_succ_cons, List.drop_succ_cons, List.map_cons]

/-! ### Claim theorems -/

/-- Claim C1 (amended): one pass through `get_requests` increments the
global counter exactly once — the pacing check `freeze_time` runs — for the
modes `'no proxy, cookie'`, `'no proxy, no cookie'` and `'proxy, cookie'`;
for `'no header'` *and for `'proxy, no cookie'`* the counter is unchanged,
because the `'proxy, no cookie'` branch of the source never calls
`freeze_time`. -/
theorem c1_counter_per_mode (up : Bool) (rules : List (List String)) (st : GState) :
    (dispatch_once up rules "no proxy, cookie" st).2.global_time = st.global_time + 1
  ∧ (dispatch_once up rules "no proxy, no cookie" st).2.global_time = st.global_time + 1
  ∧ (dispatch_once up rules "proxy, cookie" st).2.global_time = st.global_time + 1
  ∧ (dispatch_once up rules "no header" st).2.global_time = st.global_time
  ∧ (dispatch_once up rules "proxy, no cookie" st).2.global_time = st.global_time := by
  refine ⟨?_, ?_, ?_, ?_, ?_⟩
  · unfold dispatch_once
    rw [if_pos (by decide : ("no proxy, cookie" : String) ∈ validModes),
        if_neg (by decide : ¬("no proxy, cookie" : String) = "no header"),
        if_pos (by decide : strOccurs "no proxy" "no proxy, cookie" = true)]
    cases hfd : freeze_dec rules (st.global_time + 1) with
    | none => rfl
    | some osleep =>
      cases hn : st.net with
      | nil => rfl
      | cons nr rest =>
        cases nr with
        | ok r => simp only [verifyToStep_snd, handle_verify_step_global]
        | exn => rfl
  · unfold dispatch_once
    rw [if_pos (by decide : ("no proxy, no cookie" : String) ∈ validModes),
        if_neg (by decide : ¬("no proxy, no cookie" : String) = "no header"),
        if_pos (by decide : strOccurs "no proxy" "no proxy, no cookie" = true)]
    cases hfd : freeze_dec rules (st.global_time + 1) with
    | none => rfl
    | some osleep =>
      cases hn : st.net with
      | nil => rfl
      | cons nr rest =>
        cases nr with
        | ok r => simp only [verifyToStep_snd, handle_verify_step_global]
        | exn => rfl
  · unfold dispatch_once
    rw [if_pos (by decide : ("proxy, cookie" : String) ∈ validModes),
        if_neg (by decide : ¬("proxy, cookie" : String) = "no header"),
        if_neg (by decide : ¬(strOccurs "no proxy" "proxy, cookie" = true)),
        if_neg (by decide : ¬("proxy, cookie" : String) = "proxy, no cookie"),
        if_pos (rfl : ("proxy, cookie" : String) = "proxy, cookie")]
    cases hfd : freeze_dec rules (st.global_time + 1) with
    | none => rfl
    | some osleep =>
      cases hn : st.net with
      | nil => rfl
      | cons nr rest =>
        cases nr with
        | ok r => simp only [verifyToStep_snd, handle_verify_step_global]
        | exn => cases up <;> rfl
  · unfold dispatch_once
    rw [if_pos (by decide : ("no header" : String) ∈ validModes),
        if_pos (rfl : ("no header" : String) = "no header")]
    cases hn : st.net with
    | nil => rfl
    | cons nr rest => cases nr <;> rfl
  · unfold dispatch_once
    rw [if_pos (by decide : ("proxy, no cookie" : String) ∈ validModes),
        if_neg (by decide : ¬("proxy, no cookie" : String) = "no header"),
        if_neg (by decide : ¬(strOccurs "no proxy" "proxy, no cookie" = true)),
        if_pos (rfl : ("proxy, no cookie" : String) = "proxy, no cookie")]
    cases hn : st.net with
    | nil => rfl
    | cons nr rest =>
      cases nr with
      | ok r => simp only [verifyToStep_snd, handle_verify_step_global]
      | exn => cases up <;> rfl

/-- Claim C1 is false as stated: a `'proxy, no cookie'` dispatch (a
credentialed mode other than `'no header'`) leaves the global counter at 0
rather than incrementing it to 1. -/
theorem c1_counterexample :
    ¬ ((dispatch_once true [["100", "5"]] "proxy, no cookie"
        ⟨0, [], 0, [NetResult.ok ⟨"u"⟩]⟩).2.global_time = 0 + 1) := by
  decide

/-- Claim C2 (amended): on a response whose URL contains the challenge
marker `'verify'`, `handle_verify` blocks for a manual prompt *unless* the
mode was `'proxy, no cookie'` AND proxying is **enabled** (`USE_PROXY`
true) — the source's skip test is `request_type != 'proxy, no cookie' or
not spider_config.USE_PROXY` — and in every marker case it signals a retry,
which `get_requests` performs with the same URL and the same mode; without
the marker the response is returned unchanged. -/
theorem c2_handle_verify (up : Bool) (rules : List (List String))
    (mode url : String) (r : Resp) (st st' : GState) (fuel : Nat) :
    (strOccurs "verify" r.url = true →
       (handle_verify_step up mode r st).1 = VerifyStep.retry
     ∧ (handle_verify_step up mode r st).2.prompts =
         (if mode = "proxy, no cookie" ∧ up = true then st.prompts
          else st.prompts + 1))
  ∧ (strOccurs "verify" r.url = false →
       handle_verify_step up mode r st = (VerifyStep.done r, st))
  ∧ (dispatch_once up rules mode st = (StepOut.retry, st') →
       get_requests up rules (fuel + 1) url mode st
         = get_requests up rules fuel url mode st') := by
  refine ⟨?_, ?_, ?_⟩
  · intro hv
    unfold handle_verify_step
    rw [if_pos hv]
    by_cases hskip : mode = "proxy, no cookie" ∧ up = true
    · rw [if_neg (by
        intro hcon
        rcases hcon with hne | hf
        · exact hne hskip.1
        · rw [hskip.2] at hf; exact Bool.noConfusion hf)]
      rw [if_pos hskip]
      exact ⟨rfl, rfl⟩
    · have hor : mode ≠ "proxy, no cookie" ∨ up = false := by
        rcases not_and_or.mp hskip with h | h
        · exact Or.inl h
        · exact Or.inr (by simpa using h)
      rw [if_pos hor, if_neg hskip]
      exact ⟨rfl, rfl⟩
  · intro hv
    unfold handle_verify_step
    rw [if_neg (by simp [hv])]
  · intro hd
    simp only [get_requests, hd]

/-- Claim C2 is false as stated: with mode `'proxy, no cookie'` and
proxying *enabled* the claim requires a blocking prompt (its only skip
exception demands proxying disabled), but the source skips the prompt. -/
theorem c2_counterexample :
    (handle_verify_step true "proxy, no cookie" ⟨"http://a/verify"⟩
      ⟨0, [], 0, []⟩).2.prompts = 0 := by
  decide

/-- Witness for C2 at concrete inputs: a `'no proxy, cookie'` response that
hit the marker prompts once and retries; a clean response is returned
unchanged; a retry re-enters the dispatch loop with the same URL and mode. -/
theorem c2_witness :
    ((handle_verify_step false "no proxy, cookie" ⟨"http://a/verify"⟩
        ⟨0, [], 0, []⟩).1 = VerifyStep.retry
     ∧ (handle_verify_step false "no proxy, cookie" ⟨"http://a/verify"⟩
        ⟨0, [], 0, []⟩).2.prompts =
          (if ("no proxy, cookie" : String) = "proxy, no cookie" ∧ (false : Bool) = true
           then (0 : Nat) else 0 + 1))
  ∧ handle_verify_step false "no proxy, cookie" ⟨"http://a/ok"⟩ ⟨0, [], 0, []⟩
      = (VerifyStep.done ⟨"http://a/ok"⟩, ⟨0, [], 0, []⟩)
  ∧ get_requests true [] (0 + 1) "u" "proxy, no cookie" ⟨0, [], 0, [NetResult.exn]⟩
      = get_requests true [] 0 "u" "proxy, no cookie" ⟨0, [], 0, []⟩ :=
  ⟨(c2_handle_verify false [] "no proxy, cookie" "u" ⟨"http://a/verify"⟩
      ⟨0, [], 0, []⟩ ⟨0, [], 0, []⟩ 0).1 (by decide),
   (c2_handle_verify false [] "no proxy, cookie" "u" ⟨"http://a/ok"⟩
      ⟨0, [], 0, []⟩ ⟨0, [], 0, []⟩ 0).2.1 (by decide),
   (c2_handle_verify true [] "proxy, no cookie" "u" ⟨"x"⟩
      ⟨0, [], 0, [NetResult.exn]⟩ ⟨0, [], 0, []⟩ 0).2.2 (by decide)⟩

/-- Claim C3: evaluation of `get_request_for_interface` with
`REPEAT_NUMBER = 0` (budget 5). When all five attempts parse to a
non-success status the loop makes exactly 5 attempts and exits fatally —
but when all five bodies fail to parse as JSON the loop makes 5 attempts
and then *returns* the final non-success response instead of exiting (the
budget-exhaustion `exit()` sits inside the `try` block after the parse, so
it is unreachable when the last body is unparseable). -/
theorem c3_retry_budget_exhaustion :
    get_request_for_interface 0 false (List.replicate 5 ApiResp.bad)
      = IfaceResult.ret (some ApiResp.bad) false 0 5
  ∧ get_request_for_interface 0 false (List.replicate 5 (ApiResp.code 500))
      = IfaceResult.exited false 0 5 := by
  exact ⟨by decide, by decide⟩

/-- Claim C4: pacing.  (1) the first credentialed request (counter 1) never
suspends; (2)(3) with table `'100,5;200,10'` the counter reaching 200
suspends 10 seconds (not 5) and reaching 100 suspends 5 seconds, because
the parsed table is scanned in reversed declaration order; (4) if no
well-formed rule's request count divides the counter there is no
suspension; (5) the first rule (in scan order) whose request count divides
the counter fires and scanning stops, regardless of later rules. -/
theorem c4_freeze_time_pacing :
    (∀ rules : List (List String), freeze_time rules 0 = (1, some none))
  ∧ freeze_time (parse_stop_time "100,5;200,10") 199 = (200, some (some 10))
  ∧ freeze_time (parse_stop_time "100,5;200,10") 99 = (100, some (some 5))
  ∧ (∀ (rules : List (List String)) (g : Nat),
      (∀ e ∈ rules, rule_no_fire ((g + 1 : Nat) : Int) e = true) →
      freeze_time rules g = (g + 1, some none))
  ∧ (∀ (rules1 rules2 : List (List String)) (e : List String) (g : Nat)
        (rc sl : Int),
      0 < g →
      (∀ e2 ∈ rules1, rule_no_fire ((g + 1 : Nat) : Int) e2 = true) →
      readRule e = some (rc, sl) → rc ≠ 0 → ((g + 1 : Nat) : Int) % rc = 0 →
      freeze_time (rules1 ++ e :: rules2) g = (g + 1, some (some sl))) := by
  refine ⟨fun rules => rfl, by decide, by decide, ?_, ?_⟩
  · intro rules g h
    unfold freeze_time freeze_dec
    by_cases hg : g + 1 = 1
    · rw [if_pos hg]
    · rw [if_neg hg, freeze_scan_no_fire rules _ h]
  · intro rules1 rules2 e g rc sl hg h1 h2 h3 h4
    unfold freeze_time freeze_dec
    rw [if_neg (by omega), freeze_scan_first_fire rules1 rules2 e _ rc sl h1 h2 h3 h4]

/-- Witness for C4 at concrete inputs: a table whose single rule misses
counter 4 gives no suspension; a firing rule in the middle of a table fires
with its own duration. -/
theorem c4_witness :
    freeze_time [["3", "7"]] 3 = (3 + 1, some none)
  ∧ freeze_time ([["3", "7"]] ++ ["2", "9"] :: [["5", "1"]]) 3
      = (3 + 1, some (some 9)) :=
  ⟨c4_freeze_time_pacing.2.2.2.1 [["3", "7"]] 3 (by decide),
   c4_freeze_time_pacing.2.2.2.2 [["3", "7"]] [["5", "1"]] ["2", "9"] 3 2 9
     (by decide) (by decide) (by decide) (by decide) (by decide)⟩

/-- Claim C5: under the `RawSpan` shape (`replace_search_html`), text
carrying the marker `"font-id1">&#xE001;` decoded with the font-map entry
for code point E001 (glyph name `uniE001`, the form `get_map` produces and
the source rewrites to the numeric character reference `&#xE001`) mapping
to `鸡` yields `"font-id1">鸡`: the reference is replaced by the real
character and the font-id anchor is kept. -/
theorem c5_search_scenario :
    replace_search_html (fun _ => [("uniE001", "鸡")]) [("font-id1", "p0")]
        "<span class=\"font-id1\">&#xE001;</span>"
      = "<span class=\"font-id1\">鸡</span>" := by
  decide

/-- Claim C6: the 406 manual pause fires at most once per process.  (1) with
the cold-start flag already cleared the loop never prompts, whatever the
responses; (2) starting cold it prompts at most once; (3) in the concrete
scenario (budget 3; responses 406, then 500, then another 406, then 200)
exactly one prompt occurs, one extra uncharged request is made (4 requests
against a budget of 3), the flag ends cleared, and the later 406 does not
prompt. -/
theorem c6_cold_start_pause_once :
    (∀ (n : Nat) (oracle : List ApiResp) (p a : Nat) (last : Option ApiResp),
       (run_iface n false oracle p a last).pausesOf = p)
  ∧ (∀ (n : Nat) (oracle : List ApiResp) (p a : Nat) (last : Option ApiResp),
       (run_iface n true oracle p a last).pausesOf ≤ p + 1)
  ∧ run_iface 3 true
      [ApiResp.code 406, ApiResp.code 500, ApiResp.code 406, ApiResp.code 200]
      0 0 none
      = IfaceResult.ret (some (ApiResp.code 200)) false 1 4 :=
  ⟨fun n => run_iface_pauses_warm n, fun n => run_iface_pauses_cold n, by decide⟩

/-- Claim C7: each decoder is idempotent when no marker of its substitution
list occurs in the once-decoded text (the formal content of "replacement
characters never produce a string that is itself a valid marker for any
entry"). -/
theorem c7_decode_idempotent (gm : String → List (String × String))
    (fm : List (String × String)) (s : String) :
    ((∀ kv ∈ search_pairs gm fm,
        strOccurs kv.1 (replace_search_html gm fm s) = false) →
      replace_search_html gm fm (replace_search_html gm fm s)
        = replace_search_html gm fm s)
  ∧ ((∀ kv ∈ review_pairs gm fm,
        strOccurs kv.1 (replace_review_html gm fm s) = false) →
      replace_review_html gm fm (replace_review_html gm fm s)
        = replace_review_html gm fm s)
  ∧ ((∀ kv ∈ json_pairs gm fm,
        strOccurs kv.1 (replace_json_text gm fm s) = false) →
      replace_json_text gm fm (replace_json_text gm fm s)
        = replace_json_text gm fm s) := by
  refine ⟨fun h => ?_, fun h => ?_, fun h => ?_⟩
  · rw [replace_search_eq gm fm (replace_search_html gm fm s)]
    exact applySubsts_fixed (search_pairs gm fm) (replace_search_html gm fm s) h
  · rw [replace_review_eq gm fm (replace_review_html gm fm s)]
    exact applySubsts_fixed (review_pairs gm fm) (replace_review_html gm fm s) h
  · rw [replace_json_eq gm fm (replace_json_text gm fm s)]
    exact applySubsts_fixed (json_pairs gm fm) (replace_json_text gm fm s) h

/-- Witness for C7 at a concrete input: one font map, one entry, all three
decoders applied twice. -/
theorem c7_witness :
    replace_search_html (fun _ => [("uniE001", "鸡")]) [("id1", "p")]
        (replace_search_html (fun _ => [("uniE001", "鸡")]) [("id1", "p")]
          "\"id1\">&#xE001;")
      = replace_search_html (fun _ => [("uniE001", "鸡")]) [("id1", "p")]
          "\"id1\">&#xE001;"
  ∧ replace_review_html (fun _ => [("uniE001", "鸡")]) [("id1", "p")]
        (replace_review_html (fun _ => [("uniE001", "鸡")]) [("id1", "p")]
          "\"id1\">&#xE001;")
      = replace_review_html (fun _ => [("uniE001", "鸡")]) [("id1", "p")]
          "\"id1\">&#xE001;"
  ∧ replace_json_text (fun _ => [("uniE001", "鸡")]) [("id1", "p")]
        (replace_json_text (fun _ => [("uniE001", "鸡")]) [("id1", "p")]
          "\"id1\">&#xE001;")
      = replace_json_text (fun _ => [("uniE001", "鸡")]) [("id1", "p")]
          "\"id1\">&#xE001;" :=
  ⟨(c7_decode_idempotent (fun _ => [("uniE001", "鸡")]) [("id1", "p")]
      "\"id1\">&#xE001;").1 (by decide),
   (c7_decode_idempotent (fun _ => [("uniE001", "鸡")]) [("id1", "p")]
      "\"id1\">&#xE001;").2.1 (by decide),
   (c7_decode_idempotent (fun _ => [("uniE001", "鸡")]) [("id1", "p")]
      "\"id1\">&#xE001;").2.2 (by decide)⟩

/-- Claim C8: in HTTP-extract mode (1) a pop from a non-empty pool returns
the front slot and leaves the tail (first-in-first-out, no refill); (2) a
refill of an empty pool expands each fetched entry into `REPEAT_NUMBER`
duplicate slots in fetch order, then pops the front of that expansion; (3)
`n` pops without an intervening refill return the first `n` slots in order
and leave the rest, so no pool slot is ever returned twice. -/
theorem c8_proxy_pool_fifo :
    (∀ (cfg : SpiderConfig) (fetch : FetchRes) (e : String × String)
        (rest : List (String × String)),
       cfg.http_extract = true →
       get_proxy cfg fetch (e :: rest)
         = (ProxyOut.proxy (http_proxy_utils e.1 e.2), rest))
  ∧ (∀ (cfg : SpiderConfig) (entries : List ProxyEntry),
       cfg.http_extract = true →
       get_proxy cfg (FetchRes.ok entries) []
         = (match expandPool cfg.repeat_number entries with
            | [] => (ProxyOut.indexError, ([] : List (String × String)))
            | (ip, port) :: rest =>
              (ProxyOut.proxy (http_proxy_utils ip port), rest)))
  ∧ (∀ (cfg : SpiderConfig) (fetch : FetchRes) (n : Nat)
        (pool : List (String × String)),
       cfg.http_extract = true → n ≤ pool.length →
       get_proxy_seq cfg fetch n pool
         = ((pool.take n).map (fun e => ProxyOut.proxy (http_proxy_utils e.1 e.2)),
            pool.drop n)) := by
  refine ⟨fun cfg fetch e rest h => get_proxy_pop cfg fetch e rest h,
          ?_,
          fun cfg fetch n pool h1 h2 =>
            get_proxy_seq_take_drop cfg fetch n pool h1 h2⟩
  intro cfg entries h
  unfold get_proxy
  rw [if_pos h, if_pos (by decide : ([] : List (String × String)).length = 0)]
  simp only [List.nil_append]
  cases hE : expandPool cfg.repeat_number entries with
  | nil => rfl
  | cons e rest =>
    obtain ⟨ip, port⟩ := e
    rfl

/-- Witness for C8 at concrete inputs: a pop returns the front slot; a
refill of an empty pool expands and pops; two pops from a three-slot pool
(with duplicate slot values) return the first two slots and leave the
third. -/
theorem c8_witness :
    get_proxy ⟨2, true, false, "k", "s", "h", "p"⟩ FetchRes.exn
        [("a", "1"), ("b", "2")]
      = (ProxyOut.proxy (http_proxy_utils "a" "1"), [("b", "2")])
  ∧ get_proxy ⟨2, true, false, "k", "s", "h", "p"⟩ (FetchRes.ok [⟨"a", "1"⟩]) []
      = (ProxyOut.proxy (http_proxy_utils "a" "1"), [("a", "1")])
  ∧ get_proxy_seq ⟨2, true, false, "k", "s", "h", "p"⟩ FetchRes.exn 2
        [("a", "1"), ("b", "2"), ("a", "1")]
      = (([("a", "1"), ("b", "2"), ("a", "1")].take 2).map
          (fun e => ProxyOut.proxy (http_proxy_utils e.1 e.2)),
         [("a", "1"), ("b", "2"), ("a", "1")].drop 2) :=
  ⟨c8_proxy_pool_fifo.1 ⟨2, true, false, "k", "s", "h", "p"⟩ FetchRes.exn
     ("a", "1") [("b", "2")] rfl,
   c8_proxy_pool_fifo.2.1 ⟨2, true, false, "k", "s", "h", "p"⟩ [⟨"a", "1"⟩] rfl,
   c8_proxy_pool_fifo.2.2 ⟨2, true, false, "k", "s", "h", "p"⟩ FetchRes.exn 2
     [("a", "1"), ("b", "2"), ("a", "1")] rfl (by decide)⟩

/-- Claim C9: the retry budget is not `REPEAT_NUMBER` itself —
`get_retry_time` returns 5 when `REPEAT_NUMBER` is 0 and `REPEAT_NUMBER + 1`
otherwise, one more than any non-zero configured repeat count. -/
theorem c9_retry_time :
    get_retry_time 0 = 5
  ∧ ∀ n : Int, n ≠ 0 → get_retry_time n = n + 1 :=
  ⟨rfl, fun n hn => by unfold get_retry_time; rw [if_neg hn]⟩

/-- Witness for C9: a configured repeat count of 7 yields 8 attempts. -/
theorem c9_witness : get_retry_time 7 = 7 + 1 :=
  c9_retry_time.2 7 (by decide)

/-- Claim C10: in HTTP-extract mode a refill that appends no slots — empty
supply response, or repeat factor 0 — leaves the pool empty and the
subsequent `pop(0)` raises an uncaught `IndexError` (not the diagnostic
fatal exit, which conjunct (3) shows is reserved for fetch failures);
conjunct (4): with repeat factor at least 1 and a non-empty supply response
a proxy is returned. -/
theorem c10_empty_refill_index_error :
    (∀ cfg : SpiderConfig, cfg.http_extract = true → cfg.repeat_number = 0 →
       ∀ e : ProxyEntry,
       get_proxy cfg (FetchRes.ok [e]) [] = (ProxyOut.indexError, []))
  ∧ (∀ cfg : SpiderConfig, cfg.http_extract = true →
       get_proxy cfg (FetchRes.ok []) [] = (ProxyOut.indexError, []))
  ∧ (∀ cfg : SpiderConfig, cfg.http_extract = true →
       get_proxy cfg FetchRes.exn [] = (ProxyOut.exitedFatal, []))
  ∧ (∀ (cfg : SpiderConfig) (entries : List ProxyEntry),
       cfg.http_extract = true → 1 ≤ cfg.repeat_number → entries ≠ [] →
       ∃ m rest, get_proxy cfg (FetchRes.ok entries) []
         = (ProxyOut.proxy m, rest)) := by
  refine ⟨?_, ?_, ?_, ?_⟩
  · intro cfg h1 h2 e
    unfold get_proxy
    rw [if_pos h1, if_pos (by decide : ([] : List (String × String)).length = 0)]
    simp [expandPool, h2]
  · intro cfg h
    unfold get_proxy
    rw [if_pos h, if_pos (by decide : ([] : List (String × String)).length = 0)]
    rfl
  · intro cfg h
    unfold get_proxy
    rw [if_pos h, if_pos (by decide : ([] : List (String × String)).length = 0)]
  · intro cfg entries h1 h2 h3
    cases entries with
    | nil => exact absurd rfl h3
    | cons e es =>
      obtain ⟨k, hk⟩ : ∃ k, cfg.repeat_number.toNat = k + 1 :=
        ⟨cfg.repeat_number.toNat - 1, by omega⟩
      refine ⟨http_proxy_utils e.ip e.port,
              List.replicate k (e.ip, e.port) ++ expandPool cfg.repeat_number es,
              ?_⟩
      unfold get_proxy
      rw [if_pos h1, if_pos (by decide : ([] : List (String × String)).length = 0)]
      simp only [List.nil_append, expandPool, List.flatMap_cons, hk,
        List.replicate_succ, List.cons_append]

/-- Witness for C10 at concrete inputs: repeat factor 0, empty supply, fetch
failure, and a healthy configuration. -/
theorem c10_witness :
    get_proxy ⟨0, true, false, "", "", "", ""⟩
        (FetchRes.ok [⟨"1.2.3.4", "80"⟩]) [] = (ProxyOut.indexError, [])
  ∧ get_proxy ⟨3, true, false, "", "", "", ""⟩
        (FetchRes.ok []) [] = (ProxyOut.indexError, [])
  ∧ get_proxy ⟨3, true, false, "", "", "", ""⟩
        FetchRes.exn [] = (ProxyOut.exitedFatal, [])
  ∧ ∃ m rest, get_proxy ⟨3, true, false, "", "", "", ""⟩
        (FetchRes.ok [⟨"a", "1"⟩]) [] = (ProxyOut.proxy m, rest) :=
  ⟨c10_empty_refill_index_error.1 ⟨0, true, false, "", "", "", ""⟩ rfl rfl ⟨"1.2.3.4", "80"⟩,
   c10_empty_refill_index_error.2.1 ⟨3, true, false, "", "", "", ""⟩ rfl,
   c10_empty_refill_index_error.2.2.1 ⟨3, true, false, "", "", "", ""⟩ rfl,
   c10_empty_refill_index_error.2.2.2 ⟨3, true, false, "", "", "", ""⟩
     [⟨"a", "1"⟩] rfl (by decide) (by decide)⟩
